import Mathlib

/-!
Verification of the First Meaningful Paint audit engine
(lighthouse-core/audits/metrics/first-meaningful-paint.js).

The audit class composes an upstream computed-metric provider, an
environment-dependent options resolution, a log-normal scoring curve and a
localization collaborator.  Pure parts are embedded as Lean functions over
the reals; the asynchronous provider call is embedded as an explicit
state-passing function returning Except (rejection propagates as the error
constructor).
-/

/-- A JavaScript runtime value, as far as the audit inspects one: the
TestedAsMobileDevice artifact can be any value and is compared with the
strict-equality operator against the boolean literal false. -/
inductive JSValue where
  | undefined : JSValue
  | null : JSValue
  | bool : Bool → JSValue
  | num : ℚ → JSValue
  | str : String → JSValue
  deriving DecidableEq, Repr

/-- One score-curve parameter set, as in LH.Audit.ScoreOptions:
the point-of-diminishing-returns threshold and the median threshold,
in milliseconds. -/
structure ScoreOptions where
  scorePODR : ℝ
  scoreMedian : ℝ

/-- The configuration surface of the audit: a mobile and a desktop
parameter set. -/
structure AuditOptions where
  mobile : ScoreOptions
  desktop : ScoreOptions

/-- The default collection pass name used to index the trace and the
devtools log (Audit.DEFAULT_PASS in the framework). -/
def DEFAULT_PASS : String := "defaultPass"

/-- Options resolution, exactly the selection expression of the audit:
context.options[artifacts.TestedAsMobileDevice === false ? "desktop" : "mobile"].
Strict equality against the boolean literal false selects the desktop set;
every other value selects the mobile set. -/
def resolveOptions (testedAsMobileDevice : JSValue) (options : AuditOptions) :
    ScoreOptions :=
  if testedAsMobileDevice = JSValue.bool false then options.desktop
  else options.mobile

/-- FirstMeaningfulPaint.defaultOptions: the built-in mobile and desktop
score-curve parameter sets. -/
def defaultOptions : AuditOptions :=
  { mobile := { scorePODR := 2000, scoreMedian := 4000 }
    desktop := { scorePODR := 800, scoreMedian := 1600 } }

/-- Modelled from the spec: the calibration constant of the scoring curve,
the score assigned at the point-of-diminishing-returns threshold
(section 4.1 of the spec fixes it near 0.9, and the design notes ask for it
to be a named tunable rather than a magic number). -/
noncomputable def podrScore : ℝ := 9 / 10

/-- Modelled from the spec: the standard-normal cumulative distribution
function used by the log-normal scoring curve.  The implementation of
Audit.computeLogNormalScore lives in lighthouse-core/audits/audit.js and
lib/statistics.js, which are not part of the sources under verification, so
the curve is modelled from section 4.1 of the spec.  The spec relies on the
following properties of the CDF: it is monotone, bounded by 0 and 1, takes
the value one half at 0, and admits a (negative) quantile point at which it
takes the value 1 - podrScore, the point used to derive the shape parameter
from the threshold ratio via the inverse quantile function. -/
structure StdNormalCDF where
  Φ : ℝ → ℝ
  mono : Monotone Φ
  nonneg : ∀ x, 0 ≤ Φ x
  le_one : ∀ x, Φ x ≤ 1
  at_zero : Φ 0 = 1 / 2
  zPODR : ℝ
  zPODR_neg : zPODR < 0
  at_zPODR : Φ zPODR = 1 - podrScore

/-- Modelled from the spec: Audit.computeLogNormalScore (not among the
sources under verification; section 4.1 of the spec).  Timing and the two
thresholds are transformed into log-space; the location parameter of the
log-normal distribution is the log of the median threshold and the shape
parameter is derived from the log of the ratio between the PODR threshold
and the median threshold via the inverse standard-normal quantile function
(so that the PODR threshold is scored exactly at the calibration constant);
the score is the complementary log-normal CDF at the timing.  A timing of 0
is the log-space limit at negative infinity, where the complementary CDF is
1, so the function is total there with no division by zero. -/
noncomputable def computeLogNormalScore (C : StdNormalCDF)
    (measuredValue scorePODR scoreMedian : ℝ) : ℝ :=
  if measuredValue = 0 then 1
  else
    1 - C.Φ ((Real.log measuredValue - Real.log scoreMedian) /
      ((Real.log scorePODR - Real.log scoreMedian) / C.zPODR))

/-- A concrete cumulative-distribution model (a clamped affine sigmoid),
used to instantiate the scoring curve on concrete inputs. -/
noncomputable def modelPhi (x : ℝ) : ℝ := max 0 (min 1 (1 / 2 + x / 2))

/-- The clamped affine sigmoid packaged with the CDF properties the scoring
curve relies on. -/
noncomputable def modelCDF : StdNormalCDF where
  Φ := modelPhi
  mono := fun a b h =>
    max_le_max le_rfl (min_le_min le_rfl (by linarith))
  nonneg := fun x => le_max_left 0 _
  le_one := fun x => max_le zero_le_one (min_le_left 1 _)
  at_zero := by norm_num [modelPhi]
  zPODR := -(4 / 5)
  zPODR_neg := by norm_num
  at_zPODR := by norm_num [modelPhi, podrScore]

section Pipeline

/- The trace, devtools log, settings, provider error and provider cache are
opaque to the audit: it only forwards them.  They are type parameters of
the embedding. -/
variable {Trace DevtoolsLog Settings Err Cache : Type}

/-- The artifacts consumed by the audit, as declared by requiredArtifacts:
per-pass traces and devtools logs, and the TestedAsMobileDevice
classification value. -/
structure Artifacts (Trace DevtoolsLog : Type) where
  traces : String → Trace
  devtoolsLogs : String → DevtoolsLog
  TestedAsMobileDevice : JSValue

/-- The audit context (LH.Audit.Context): settings and the resolved
options surface. -/
structure AuditContext (Settings : Type) where
  settings : Settings
  options : AuditOptions

/-- The computation-data record passed to the computed-metric provider:
trace, devtools log and settings. -/
structure MetricComputationData (Trace DevtoolsLog Settings : Type) where
  trace : Trace
  devtoolsLog : DevtoolsLog
  settings : Settings

/-- The record produced by the computed-metric provider on success. -/
structure MetricResult where
  timing : ℝ

/-- The audit product (LH.Audit.Product) constructed on success. -/
structure AuditProduct where
  score : ℝ
  numericValue : ℝ
  numericUnit : String
  displayValue : String

/-- The upstream computed-metric provider (ComputedFmp.request), an
external collaborator: an asynchronous computation embedded as a function
from its memoization state and inputs to a rejected-or-resolved result and
the new memoization state. -/
def Provider (Trace DevtoolsLog Settings Err Cache : Type) : Type :=
  Cache → MetricComputationData Trace DevtoolsLog Settings →
    AuditContext Settings → Except Err MetricResult × Cache

/-- FirstMeaningfulPaint.audit: read the default-pass trace and devtools
log, await the computed FMP metric (a rejection propagates unchanged),
select the desktop options exactly when TestedAsMobileDevice is strictly
equal to false and the mobile options otherwise, and package the product
with the log-normal score, the raw timing as numericValue in milliseconds,
and the display value formatted by the localization collaborator. -/
noncomputable def audit (C : StdNormalCDF)
    (request : Provider Trace DevtoolsLog Settings Err Cache)
    (formatDisplay : ℝ → String)
    (artifacts : Artifacts Trace DevtoolsLog)
    (context : AuditContext Settings) (cache : Cache) :
    Except Err AuditProduct × Cache :=
  let trace := artifacts.traces DEFAULT_PASS
  let devtoolsLog := artifacts.devtoolsLogs DEFAULT_PASS
  let metricComputationData : MetricComputationData Trace DevtoolsLog Settings :=
    { trace := trace, devtoolsLog := devtoolsLog, settings := context.settings }
  match request cache metricComputationData context with
  | (Except.error e, cache2) => (Except.error e, cache2)
  | (Except.ok metricResult, cache2) =>
    let scoreOptions := resolveOptions artifacts.TestedAsMobileDevice context.options
    (Except.ok
      { score := computeLogNormalScore C metricResult.timing
          scoreOptions.scorePODR scoreOptions.scoreMedian
        numericValue := metricResult.timing
        numericUnit := "millisecond"
        displayValue := formatDisplay metricResult.timing }, cache2)

end Pipeline

/-- Concrete artifacts used to instantiate the pipeline: the opaque trace
and devtools-log payloads are units and the device classification is the
boolean true. -/
def artifactsW : Artifacts Unit Unit :=
  { traces := fun _ => ()
    devtoolsLogs := fun _ => ()
    TestedAsMobileDevice := JSValue.bool true }

/-- Concrete audit context carrying the built-in default options. -/
def contextW : AuditContext Unit :=
  { settings := (), options := defaultOptions }

/-- A provider that always fails with a fixed message and leaves its
memoization state unchanged. -/
def requestFail : Provider Unit Unit Unit String Unit :=
  fun c _ _ => (Except.error "metric computation failed", c)

/-- A provider that always resolves with a timing of 1000 milliseconds and
leaves its memoization state unchanged (so it trivially satisfies the
memoization guarantee). -/
def requestOk : Provider Unit Unit Unit String Unit :=
  fun c _ _ => (Except.ok { timing := 1000 }, c)

/-- A fixed display formatter standing in for the localization
collaborator. -/
def formatW : ℝ → String := fun _ => "formatted timing"

/-- An invalid configuration: the mobile PODR threshold 4000 is not below
the mobile median threshold 2000. -/
def badOptions : AuditOptions :=
  { mobile := { scorePODR := 4000, scoreMedian := 2000 }
    desktop := { scorePODR := 800, scoreMedian := 1600 } }

/-- An audit context carrying the invalid configuration. -/
def contextBad : AuditContext Unit :=
  { settings := (), options := badOptions }

/-- A provider that resolves with a timing of 4000 milliseconds. -/
def requestBad : Provider Unit Unit Unit String Unit :=
  fun c _ _ => (Except.ok { timing := 4000 }, c)

/-- The shape parameter of the curve is positive for a valid parameter
pair: the log of the threshold ratio is negative and so is the quantile
point. -/
lemma shape_pos (C : StdNormalCDF) {p m : ℝ} (hp : 0 < p) (hm : p < m) :
    0 < (Real.log p - Real.log m) / C.zPODR :=
  div_pos_iff.2 (Or.inr ⟨sub_neg.2 (Real.log_lt_log hp hm), C.zPODR_neg⟩)

/-- The score never drops below 0, at any input. -/
lemma score_nonneg (C : StdNormalCDF) (t p m : ℝ) :
    0 ≤ computeLogNormalScore C t p m := by
  unfold computeLogNormalScore
  split
  · norm_num
  · have h1 := C.le_one ((Real.log t - Real.log m) /
      ((Real.log p - Real.log m) / C.zPODR))
    linarith

/-- The score never exceeds 1, at any input. -/
lemma score_le_one (C : StdNormalCDF) (t p m : ℝ) :
    computeLogNormalScore C t p m ≤ 1 := by
  unfold computeLogNormalScore
  split
  · norm_num
  · have h1 := C.nonneg ((Real.log t - Real.log m) /
      ((Real.log p - Real.log m) / C.zPODR))
    linarith

/-- Claim C1: for every timing at least 0 and every valid parameter pair
with the PODR threshold below the median threshold, the computed score lies
in the interval from 0 to 1 and is monotonically non-increasing in the
timing: a larger timing never yields a higher score. -/
theorem score_range_and_antitone (C : StdNormalCDF) (p m : ℝ)
    (hp : 0 < p) (hm : p < m) :
    (∀ t, 0 ≤ t →
      0 ≤ computeLogNormalScore C t p m ∧ computeLogNormalScore C t p m ≤ 1) ∧
    (∀ t1 t2, 0 ≤ t1 → t1 ≤ t2 →
      computeLogNormalScore C t2 p m ≤ computeLogNormalScore C t1 p m) := by
  constructor
  · intro t _
    exact ⟨score_nonneg C t p m, score_le_one C t p m⟩
  · intro t1 t2 ht1 h12
    rcases eq_or_lt_of_le ht1 with h0 | h0
    · have ht1z : computeLogNormalScore C t1 p m = 1 := by
        unfold computeLogNormalScore
        rw [if_pos h0.symm]
      rw [ht1z]
      exact score_le_one C t2 p m
    · have ht2 : 0 < t2 := lt_of_lt_of_le h0 h12
      have hσ : 0 < (Real.log p - Real.log m) / C.zPODR := shape_pos C hp hm
      have hlog : Real.log t1 ≤ Real.log t2 := (Real.log_le_log_iff h0 ht2).2 h12
      have harg : (Real.log t1 - Real.log m) / ((Real.log p - Real.log m) / C.zPODR) ≤
          (Real.log t2 - Real.log m) / ((Real.log p - Real.log m) / C.zPODR) :=
        (div_le_div_iff_of_pos_right hσ).2 (sub_le_sub_right hlog _)
      have hΦ := C.mono harg
      unfold computeLogNormalScore
      rw [if_neg (ne_of_gt h0), if_neg (ne_of_gt ht2)]
      linarith

/-- Claim C1, instantiated: with the concrete CDF model and the default
mobile thresholds, a timing of 3000 is scored inside the unit interval and
a timing of 4000 is scored no higher than a timing of 3000. -/
theorem score_range_and_antitone_witness :
    (0 ≤ computeLogNormalScore modelCDF 3000 2000 4000 ∧
      computeLogNormalScore modelCDF 3000 2000 4000 ≤ 1) ∧
    computeLogNormalScore modelCDF 4000 2000 4000 ≤
      computeLogNormalScore modelCDF 3000 2000 4000 :=
  ⟨(score_range_and_antitone modelCDF 2000 4000 (by norm_num) (by norm_num)).1
      3000 (by norm_num),
    (score_range_and_antitone modelCDF 2000 4000 (by norm_num) (by norm_num)).2
      3000 4000 (by norm_num) (by norm_num)⟩

/-- Claim C2: for every valid parameter pair, the curve is calibrated at
its two reference points: the median threshold is scored exactly one half,
and the PODR threshold is scored exactly at the calibration constant, which
is strictly greater than one half. -/
theorem score_calibration (C : StdNormalCDF) (p m : ℝ)
    (hp : 0 < p) (hm : p < m) :
    computeLogNormalScore C m p m = 1 / 2 ∧
    computeLogNormalScore C p p m = podrScore ∧ 1 / 2 < podrScore := by
  have hmpos : 0 < m := hp.trans hm
  have hdiff : Real.log p - Real.log m ≠ 0 :=
    ne_of_lt (sub_neg.2 (Real.log_lt_log hp hm))
  refine ⟨?_, ?_, by norm_num [podrScore]⟩
  · unfold computeLogNormalScore
    rw [if_neg (ne_of_gt hmpos), sub_self, zero_div, C.at_zero]
    norm_num
  · unfold computeLogNormalScore
    rw [if_neg (ne_of_gt hp), div_div_eq_mul_div,
      mul_div_cancel_left₀ _ hdiff, C.at_zPODR]
    ring

/-- Claim C2, instantiated: with the concrete CDF model and the default
mobile thresholds, the median timing 4000 is scored one half and the PODR
timing 2000 is scored at the calibration constant. -/
theorem score_calibration_witness :
    computeLogNormalScore modelCDF 4000 2000 4000 = 1 / 2 ∧
    computeLogNormalScore modelCDF 2000 2000 4000 = podrScore ∧
    1 / 2 < podrScore :=
  score_calibration modelCDF 2000 4000 (by norm_num) (by norm_num)

/-- Claim C7: at a timing of 0 (instant paint) the scoring function is
total and returns exactly 1: a well-defined finite real, with no division
by zero, at the top of the score range. -/
theorem score_at_zero (C : StdNormalCDF) (p m : ℝ) :
    computeLogNormalScore C 0 p m = 1 := by
  unfold computeLogNormalScore
  rw [if_pos rfl]

/-- Claim C3: options resolution selects the desktop parameter set exactly
on the strict boolean false, and the mobile set on true and on an absent
(undefined) classification. -/
theorem resolveOptions_cases (cfg : AuditOptions) :
    resolveOptions (JSValue.bool false) cfg = cfg.desktop ∧
    resolveOptions (JSValue.bool true) cfg = cfg.mobile ∧
    resolveOptions JSValue.undefined cfg = cfg.mobile :=
  ⟨rfl, rfl, rfl⟩

/-- Claim C10: the desktop parameter set is selected only for the strict
boolean value false; every other value of the classification artifact,
including null, numbers, and the string with the text false, selects the
mobile set. -/
theorem resolveOptions_strict_equality (v : JSValue) (cfg : AuditOptions)
    (hv : v ≠ JSValue.bool false) :
    resolveOptions v cfg = cfg.mobile ∧
    resolveOptions (JSValue.bool false) cfg = cfg.desktop :=
  ⟨if_neg hv, rfl⟩

/-- Claim C10, instantiated: the string containing the text false is not
the boolean false, so it selects the mobile defaults. -/
theorem resolveOptions_strict_equality_witness :
    resolveOptions (JSValue.str "false") defaultOptions = defaultOptions.mobile ∧
    resolveOptions (JSValue.bool false) defaultOptions = defaultOptions.desktop :=
  resolveOptions_strict_equality (JSValue.str "false") defaultOptions (by decide)

/-- Claim C5: the built-in defaults are mobile thresholds 2000 and 4000
and desktop thresholds 800 and 1600, and both pairs are positive with the
PODR threshold strictly below the median threshold. -/
theorem defaultOptions_values :
    defaultOptions.mobile.scorePODR = 2000 ∧
    defaultOptions.mobile.scoreMedian = 4000 ∧
    defaultOptions.desktop.scorePODR = 800 ∧
    defaultOptions.desktop.scoreMedian = 1600 ∧
    (0 < defaultOptions.mobile.scorePODR ∧
      defaultOptions.mobile.scorePODR < defaultOptions.mobile.scoreMedian) ∧
    (0 < defaultOptions.desktop.scorePODR ∧
      defaultOptions.desktop.scorePODR < defaultOptions.desktop.scoreMedian) := by
  norm_num [defaultOptions]

section PipelineTheorems

variable {Trace DevtoolsLog Settings Err Cache : Type}

/-- The memoization state returned by the audit is exactly the state
returned by the single provider call it performs. -/
lemma audit_snd (C : StdNormalCDF)
    (request : Provider Trace DevtoolsLog Settings Err Cache)
    (formatDisplay : ℝ → String) (artifacts : Artifacts Trace DevtoolsLog)
    (context : AuditContext Settings) (cache : Cache) :
    (audit C request formatDisplay artifacts context cache).2 =
      (request cache
        ⟨artifacts.traces DEFAULT_PASS, artifacts.devtoolsLogs DEFAULT_PASS,
          context.settings⟩ context).2 := by
  simp only [audit]
  rcases request cache
    ⟨artifacts.traces DEFAULT_PASS, artifacts.devtoolsLogs DEFAULT_PASS,
      context.settings⟩ context with ⟨res, c2⟩
  rcases res with e | mr <;> rfl

/-- Claim C4: when the upstream metric provider rejects, the audit rejects
with exactly that failure and the state the provider left behind: no audit
product is built and no default, perfect or zero score is substituted. -/
theorem audit_propagates_failure (C : StdNormalCDF)
    (request : Provider Trace DevtoolsLog Settings Err Cache)
    (formatDisplay : ℝ → String) (artifacts : Artifacts Trace DevtoolsLog)
    (context : AuditContext Settings) (cache : Cache) (e : Err) (cache2 : Cache)
    (h : request cache
      ⟨artifacts.traces DEFAULT_PASS, artifacts.devtoolsLogs DEFAULT_PASS,
        context.settings⟩ context = (Except.error e, cache2)) :
    audit C request formatDisplay artifacts context cache =
      (Except.error e, cache2) := by
  simp only [audit]
  rw [h]

/-- Claim C4, instantiated: a provider that fails with a fixed message
makes the audit reject with that very message. -/
theorem audit_propagates_failure_witness :
    audit modelCDF requestFail formatW artifactsW contextW () =
      (Except.error "metric computation failed", ()) :=
  audit_propagates_failure modelCDF requestFail formatW artifactsW contextW ()
    "metric computation failed" () rfl

/-- Claim C6: when the provider resolves, the audit product carries the
provider timing unmodified as numericValue, the unit string millisecond,
the log-normal score of that timing under the resolved options, and the
display string produced by the localization collaborator from that
timing. -/
theorem audit_success_product (C : StdNormalCDF)
    (request : Provider Trace DevtoolsLog Settings Err Cache)
    (formatDisplay : ℝ → String) (artifacts : Artifacts Trace DevtoolsLog)
    (context : AuditContext Settings) (cache : Cache) (mr : MetricResult)
    (cache2 : Cache)
    (h : request cache
      ⟨artifacts.traces DEFAULT_PASS, artifacts.devtoolsLogs DEFAULT_PASS,
        context.settings⟩ context = (Except.ok mr, cache2)) :
    audit C request formatDisplay artifacts context cache =
      (Except.ok
        { score := computeLogNormalScore C mr.timing
            (resolveOptions artifacts.TestedAsMobileDevice context.options).scorePODR
            (resolveOptions artifacts.TestedAsMobileDevice context.options).scoreMedian
          numericValue := mr.timing
          numericUnit := "millisecond"
          displayValue := formatDisplay mr.timing }, cache2) := by
  simp only [audit]
  rw [h]

/-- Claim C6, instantiated: a provider resolving with timing 1000 yields
the product with numericValue 1000, unit millisecond, the score of 1000
under the resolved mobile defaults, and the formatted display string. -/
theorem audit_success_product_witness :
    audit modelCDF requestOk formatW artifactsW contextW () =
      (Except.ok
        { score := computeLogNormalScore modelCDF 1000
            (resolveOptions artifactsW.TestedAsMobileDevice contextW.options).scorePODR
            (resolveOptions artifactsW.TestedAsMobileDevice contextW.options).scoreMedian
          numericValue := 1000
          numericUnit := "millisecond"
          displayValue := formatW 1000 }, ()) :=
  audit_success_product modelCDF requestOk formatW artifactsW contextW ()
    { timing := 1000 } () rfl

/-- Claim C8: the audit is a pure function of its inputs, and under the
memoization guarantee of the provider (calling it again from the state it
returned gives the same result and state), running the audit a second time
from the state the first run returned yields the identical outcome. -/
theorem audit_idempotent (C : StdNormalCDF)
    (request : Provider Trace DevtoolsLog Settings Err Cache)
    (formatDisplay : ℝ → String) (artifacts : Artifacts Trace DevtoolsLog)
    (context : AuditContext Settings) (cache : Cache)
    (hmemo : ∀ (c : Cache) (mcd : MetricComputationData Trace DevtoolsLog Settings)
      (ctx : AuditContext Settings),
      request (request c mcd ctx).2 mcd ctx = request c mcd ctx) :
    audit C request formatDisplay artifacts context
        (audit C request formatDisplay artifacts context cache).2 =
      audit C request formatDisplay artifacts context cache := by
  rw [audit_snd C request formatDisplay artifacts context cache]
  simp only [audit]
  rw [hmemo cache
    ⟨artifacts.traces DEFAULT_PASS, artifacts.devtoolsLogs DEFAULT_PASS,
      context.settings⟩ context]

/-- Claim C8, instantiated: with the state-preserving provider, the second
run of the audit from the returned state equals the first run. -/
theorem audit_idempotent_witness :
    audit modelCDF requestOk formatW artifactsW contextW
        (audit modelCDF requestOk formatW artifactsW contextW ()).2 =
      audit modelCDF requestOk formatW artifactsW contextW () :=
  audit_idempotent modelCDF requestOk formatW artifactsW contextW ()
    (fun _ _ _ => rfl)

end PipelineTheorems

/-- Claim C9, counterexample: an invalid configuration (mobile median 2000
strictly below mobile PODR 4000) is not rejected anywhere: options
resolution returns the invalid pair unchanged, and the audit resolves
successfully, silently producing a degenerate score; at timing 4000 the
degenerate curve scores the slower threshold at the high calibration
constant instead of one half. -/
theorem resolveOptions_no_validation_cex :
    (badOptions.mobile.scoreMedian < badOptions.mobile.scorePODR ∧
      resolveOptions JSValue.undefined badOptions = badOptions.mobile) ∧
    audit modelCDF requestBad formatW artifactsW contextBad () =
      (Except.ok
        { score := computeLogNormalScore modelCDF 4000 4000 2000
          numericValue := 4000
          numericUnit := "millisecond"
          displayValue := formatW 4000 }, ()) ∧
    computeLogNormalScore modelCDF 4000 4000 2000 = podrScore := by
  refine ⟨⟨by norm_num [badOptions], rfl⟩, rfl, ?_⟩
  have hdiff : Real.log 4000 - Real.log 2000 ≠ 0 :=
    ne_of_gt (sub_pos.2 (Real.log_lt_log (by norm_num) (by norm_num)))
  unfold computeLogNormalScore
  rw [if_neg (by norm_num), div_div_eq_mul_div, mul_div_cancel_left₀ _ hdiff]
  show 1 - modelPhi (-(4 / 5)) = podrScore
  rw [modelPhi, podrScore]
  norm_num [min_def, max_def]

section NoValidation

variable {Trace DevtoolsLog Settings Err Cache : Type}

/-- Claim C9, amended: no defensive check rejects an invalid configuration.
Options resolution unconditionally returns the selected parameter set, and
even when the resolved set is invalid (its median threshold not above its
PODR threshold) a successful provider call makes the audit resolve with a
product whose score is silently computed from the invalid pair. -/
theorem audit_accepts_invalid_config (C : StdNormalCDF)
    (request : Provider Trace DevtoolsLog Settings Err Cache)
    (formatDisplay : ℝ → String) (artifacts : Artifacts Trace DevtoolsLog)
    (context : AuditContext Settings) (cache : Cache) (mr : MetricResult)
    (cache2 : Cache)
    (_hinvalid :
      (resolveOptions artifacts.TestedAsMobileDevice context.options).scoreMedian ≤
      (resolveOptions artifacts.TestedAsMobileDevice context.options).scorePODR)
    (h : request cache
      ⟨artifacts.traces DEFAULT_PASS, artifacts.devtoolsLogs DEFAULT_PASS,
        context.settings⟩ context = (Except.ok mr, cache2)) :
    audit C request formatDisplay artifacts context cache =
      (Except.ok
        { score := computeLogNormalScore C mr.timing
            (resolveOptions artifacts.TestedAsMobileDevice context.options).scorePODR
            (resolveOptions artifacts.TestedAsMobileDevice context.options).scoreMedian
          numericValue := mr.timing
          numericUnit := "millisecond"
          displayValue := formatDisplay mr.timing }, cache2) := by
  simp only [audit]
  rw [h]

/-- Claim C9 amended, instantiated: with the invalid mobile pair of PODR
4000 and median 2000, the audit resolves successfully with a score computed
from the invalid pair. -/
theorem audit_accepts_invalid_config_witness :
    audit modelCDF requestBad formatW artifactsW contextBad () =
      (Except.ok
        { score := computeLogNormalScore modelCDF 4000
            (resolveOptions artifactsW.TestedAsMobileDevice contextBad.options).scorePODR
            (resolveOptions artifactsW.TestedAsMobileDevice contextBad.options).scoreMedian
          numericValue := 4000
          numericUnit := "millisecond"
          displayValue := formatW 4000 }, ()) :=
  audit_accepts_invalid_config modelCDF requestBad formatW artifactsW contextBad ()
    { timing := 4000 } ()
    (by norm_num [resolveOptions, artifactsW, contextBad, badOptions]) rfl

end NoValidation
